import Mathlib

/-!
# Verification of the college course/program matching and competition-scoring engine

Shallow embedding of the core algorithms of the repository:

* `src/analyzer.py` — `CompetitionAnalyzer`: college-level similarity and
  competition-level classification.
* `src/course_matcher.py` — `CourseMatcherAI`: course-level exact/close
  matching, competition scoring and classification, report aggregation.

Python floats are modelled as rationals (`ℚ`); Python `None`-able numeric
metrics as `Option ℚ`; Python dicts keyed by college id as association
lists (`List (String × _)`, preserving insertion order as Python dicts do).
`list(set(xs))` (deduplication in unspecified order) is modelled as
`List.dedup` (deduplication keeping first occurrences); every property
proved about such lists depends only on membership or on length, which
agree between the two.
-/

namespace CollegeApp

/-! ## String primitives

Python's `str.lower()`, `str.strip()` and argument-less `str.split()` are
modelled at the character-list level with structural recursion (Lean's
built-in `String.toLower`, `String.trim` and `String.split` are
well-founded recursions that concrete proofs cannot evaluate). -/

/-- Python's `str.lower()`. -/
def pyLower (s : String) : String :=
  String.mk (s.toList.map Char.toLower)

/-- Python's argument-less `str.strip()`: drop leading and trailing
whitespace. -/
def pyStrip (s : String) : String :=
  String.mk
    (((s.toList.dropWhile Char.isWhitespace).reverse.dropWhile
      Char.isWhitespace).reverse)

/-- A college profile as consumed by `CompetitionAnalyzer` in
`src/analyzer.py`: a dict with a `programs` list and optional numeric
metrics (`college.get(metric)` returns `None` when absent). -/
structure College where
  name : String := ""
  location : String := ""
  programs : List String := []
  avg_gpa : Option ℚ := none
  avg_sat : Option ℚ := none
  avg_act : Option ℚ := none
  acceptance_rate : Option ℚ := none
  enrollment : Option ℚ := none
deriving DecidableEq

/-- The four competition levels returned by
`CompetitionAnalyzer._determine_competition_level` (strings in the source). -/
inductive CollegeLevel where
  | NONE
  | LOW
  | MEDIUM
  | HIGH
deriving DecidableEq

/-- `CompetitionAnalyzer._compare_single_metric` (src/analyzer.py:68-82):
similarity of two optional metric values. -/
def compare_single_metric (val1 val2 : Option ℚ) : ℚ :=
  match val1, val2 with
  | some v1, some v2 =>
      if v1 = 0 ∧ v2 = 0 then 1
      else
        let max_val := max |v1| |v2|
        if max_val = 0 then 1
        else max 0 (1 - |v1 - v2| / max_val)
  | _, _ => 1/2

/-- `CompetitionAnalyzer._compare_metrics` (src/analyzer.py:53-66) applied to
the fixed metric list `['avg_gpa', 'avg_sat', 'avg_act', 'acceptance_rate']`:
mean of the per-metric similarities over the metrics present in both
profiles, `0.5` when none is. -/
def compare_metrics (college1 college2 : College) : ℚ :=
  let pairs : List (Option ℚ × Option ℚ) :=
    [(college1.avg_gpa, college2.avg_gpa),
     (college1.avg_sat, college2.avg_sat),
     (college1.avg_act, college2.avg_act),
     (college1.acceptance_rate, college2.acceptance_rate)]
  let valid_scores := pairs.filterMap (fun p =>
    match p with
    | (some v1, some v2) => some (compare_single_metric (some v1) (some v2))
    | _ => none)
  if valid_scores = [] then 1/2
  else valid_scores.sum / valid_scores.length

/-- `CompetitionAnalyzer._compare_programs` (src/analyzer.py:84-96): Jaccard
overlap of the two raw program lists viewed as sets (the source builds
`set(college.get('programs', []))` with NO lower-casing or trimming);
`0.5` when either set is empty. -/
def compare_programs (college1 college2 : College) : ℚ :=
  let programs1 := college1.programs.toFinset
  let programs2 := college2.programs.toFinset
  if programs1 = ∅ ∨ programs2 = ∅ then 1/2
  else
    let overlap := (programs1 ∩ programs2).card
    let total := (programs1 ∪ programs2).card
    if 0 < total then (overlap : ℚ) / total else 1/2

/-- `CompetitionAnalyzer._calculate_similarity` (src/analyzer.py:32-51):
weighted combination 0.70/0.20/0.10, gated to `0.0` when program
similarity is below `0.1`. -/
def calculate_similarity (college1 college2 : College) : ℚ :=
  let program_similarity := compare_programs college1 college2
  let academic_similarity := compare_metrics college1 college2
  let enrollment_similarity :=
    compare_single_metric college1.enrollment college2.enrollment
  if program_similarity < 1/10 then 0
  else program_similarity * (70/100) + academic_similarity * (20/100)
       + enrollment_similarity * (10/100)

/-- `CompetitionAnalyzer._determine_competition_level` (src/analyzer.py:98-111). -/
def determine_competition_level (similarity_score : ℚ)
    (my_college competitor : College) : CollegeLevel :=
  let program_overlap := compare_programs my_college competitor
  if program_overlap > 6/10 ∧ similarity_score > 65/100 then .HIGH
  else if program_overlap > 3/10 ∧ similarity_score > 45/100 then .MEDIUM
  else if program_overlap > 1/10 then .LOW
  else .NONE

/-- `CompetitionAnalyzer.compare_colleges` (src/analyzer.py:19-30), restricted
to the `(similarity_score, competition_level)` components (the third
component is free-form analysis text). -/
def compare_colleges (my_college competitor : College) : ℚ × CollegeLevel :=
  let similarity_score := calculate_similarity my_college competitor
  (similarity_score,
   determine_competition_level similarity_score my_college competitor)

/-- Normalization of a college profile as described by the specification
("lower-cased, trimmed" program strings), used only to STATE the
normalization-invariance claim about `compare_colleges`; Python's
`p.lower().strip()` is `pyStrip ∘ pyLower`. -/
def normalizeCollege (c : College) : College :=
  { c with programs := c.programs.map (fun p => pyStrip (pyLower p)) }

/-! ## Course matcher (`src/course_matcher.py`, `CourseMatcherAI`) -/

/-- Character-level worker for `pySplit`: walk the characters, `acc` holding
the (reversed) current word; whitespace closes the current word, and runs
of whitespace produce no empty words. Structural recursion so that
concrete splits evaluate inside proofs. -/
def wordsAux : List Char → List Char → List String
  | [], acc => if acc = [] then [] else [String.mk acc.reverse]
  | c :: cs, acc =>
      if c.isWhitespace then
        if acc = [] then wordsAux cs []
        else String.mk acc.reverse :: wordsAux cs []
      else wordsAux cs (c :: acc)

/-- Python's argument-less `str.split()`: split on runs of whitespace,
discarding empty pieces. -/
def pySplit (s : String) : List String :=
  wordsAux s.toList []

/-- `set(course.split())`: the whitespace-token set of a course name. -/
def tokens (course : String) : Finset String :=
  (pySplit course).toFinset

/-- The token-Jaccard ratio between two course names (with `ℚ` division,
`x / 0 = 0`, so an empty union yields ratio `0`). Used to state the
close-match claims; the source's guard is `qualifies` below. -/
def closeSim (comp_course your_course : String) : ℚ :=
  ((tokens comp_course ∩ tokens your_course).card : ℚ)
    / ((tokens comp_course ∪ tokens your_course).card : ℚ)

/-- The close-match guard of `CourseMatcherAI._find_close_matches`
(src/course_matcher.py:198-206): positive overlap, non-empty union, and
similarity strictly above `0.4`. -/
def qualifies (comp_course your_course : String) : Bool :=
  let overlap := (tokens comp_course ∩ tokens your_course).card
  let total_keywords := (tokens comp_course ∪ tokens your_course).card
  decide (0 < overlap ∧ 0 < total_keywords ∧
    (overlap : ℚ) / (total_keywords : ℚ) > 4/10)

/-- `CourseMatcherAI._find_exact_matches` (src/course_matcher.py:163-168):
competitor courses present among your courses, de-duplicated
(`list(set(matches))`, modelled keeping first occurrences). -/
def find_exact_matches (your_courses competitor_courses : List String) :
    List String :=
  (competitor_courses.filter (fun c => decide (c ∈ your_courses))).dedup

/-- `CourseMatcherAI._find_close_matches` (src/course_matcher.py:170-210):
for each competitor course not in `exclude`, pair it with the first of
your courses not in `exclude` whose token overlap satisfies `qualifies`
(the `break` after the first hit), then de-duplicate the pair list.
The Python `keywords_map` dict iterates your courses in first-insertion
order, which is the order of `your_courses` with duplicate entries
collapsed onto their first occurrence; `List.find?` over the filtered
list returns the same first hit. -/
def find_close_matches (your_courses competitor_courses : List String)
    (exclude : List String) : List (String × String) :=
  let remaining_yours := your_courses.filter (fun c => decide (c ∉ exclude))
  let found := competitor_courses.filterMap (fun comp_course =>
    if comp_course ∈ exclude then none
    else
      (remaining_yours.find? (fun your_course =>
        qualifies comp_course your_course)).map
        (fun your_course => (comp_course, your_course)))
  found.dedup

/-- `CourseMatcherAI._calculate_competition_score`
(src/course_matcher.py:212-224). -/
def calculate_competition_score (exact_matches close_matches : ℕ)
    (competitor_total : ℕ) : ℚ :=
  if competitor_total = 0 then 0
  else
    let weighted_overlap := exact_matches * 2 + close_matches
    min 1 ((weighted_overlap : ℚ) / (competitor_total : ℚ))

/-- The five course-level competition levels returned by
`CourseMatcherAI._classify_competition` (emoji strings in the source). -/
inductive CourseLevel where
  | VERY_LOW
  | LOW
  | MEDIUM
  | HIGH
  | VERY_HIGH
deriving DecidableEq

/-- `CourseMatcherAI._classify_competition` (src/course_matcher.py:226-238). -/
def classify_competition (score : ℚ) : CourseLevel :=
  if score ≥ 7/10 then .VERY_HIGH
  else if score ≥ 5/10 then .HIGH
  else if score ≥ 3/10 then .MEDIUM
  else if score ≥ 1/10 then .LOW
  else .VERY_LOW

/-- One entry of the report's `competitors` list
(src/course_matcher.py:141-154). -/
structure CompetitorReport where
  name : String
  url : String
  total_courses : ℕ
  exact_matches : List String
  exact_match_count : ℕ
  close_matches : List (String × String)
  close_match_count : ℕ
  unique_to_competitor : List String
  unique_to_yours : List String
  competition_level : CourseLevel
  competition_score : ℚ
  match_percentage : ℚ
deriving DecidableEq

/-- The per-competitor body of the `match_courses` loop
(src/course_matcher.py:111-156): exact matches, close matches (excluding
exact ones), unique-course lists truncated to their first 10 entries
(`[:10]`), score, classification and match percentage. -/
def analyze_competitor (comp_name comp_url : String)
    (your_courses_list comp_courses : List String) : CompetitorReport :=
  let exact_matches := find_exact_matches your_courses_list comp_courses
  let close_matches :=
    find_close_matches your_courses_list comp_courses exact_matches
  let unique_to_competitor := comp_courses.filter (fun c =>
    decide (c ∉ exact_matches ∧ c ∉ close_matches.map Prod.fst))
  let unique_to_yours := your_courses_list.filter (fun c =>
    decide (c ∉ exact_matches ∧ c ∉ close_matches.map Prod.snd))
  let competition_score := calculate_competition_score
    exact_matches.length close_matches.length comp_courses.length
  { name := comp_name
    url := comp_url
    total_courses := comp_courses.length
    exact_matches := exact_matches
    exact_match_count := exact_matches.length
    close_matches := close_matches
    close_match_count := close_matches.length
    unique_to_competitor := unique_to_competitor.take 10
    unique_to_yours := unique_to_yours.take 10
    competition_level := classify_competition competition_score
    competition_score := competition_score
    match_percentage :=
      if comp_courses ≠ [] then
        (exact_matches.length : ℚ) / (comp_courses.length : ℚ) * 100
      else 0 }

/-- The summary block of `CourseMatcherAI._generate_summary`
(src/course_matcher.py:240-283); `biggest_competitors` entries are
`(name, score, exact_match_count)`. -/
structure Summary where
  total_competitors_analyzed : ℕ
  very_high_competition : ℕ
  high_competition : ℕ
  medium_competition : ℕ
  low_competition : ℕ
  average_match_percentage : ℚ
  biggest_competitors : List (String × ℚ × ℕ)
deriving DecidableEq

/-- Stable insertion used to model Python's stable `sorted(..., reverse=True)`
by `competition_score`: a new element goes after all already-placed
elements with a score `≥` its own. -/
def insertByScore (x : CompetitorReport) :
    List CompetitorReport → List CompetitorReport
  | [] => [x]
  | y :: ys =>
      if y.competition_score ≥ x.competition_score then y :: insertByScore x ys
      else x :: y :: ys

/-- Stable descending sort by `competition_score`, processing the input
left to right (equal scores keep input order, as Python's stable sort
does). -/
def sortByScoreDesc (competitors : List CompetitorReport) :
    List CompetitorReport :=
  competitors.foldl (fun acc x => insertByScore x acc) []

/-- `CourseMatcherAI._generate_summary` (src/course_matcher.py:240-283):
counts per score band, average of `match_percentage` over ALL competitors,
and the top five competitors by score. -/
def generate_summary : List CompetitorReport → Summary
  | [] =>
    { total_competitors_analyzed := 0
      very_high_competition := 0
      high_competition := 0
      medium_competition := 0
      low_competition := 0
      average_match_percentage := 0
      biggest_competitors := [] }
  | competitors@(_ :: _) =>
    let total_match_pct := (competitors.map (fun c => c.match_percentage)).sum
    let sorted_comps := sortByScoreDesc competitors
    { total_competitors_analyzed := competitors.length
      very_high_competition :=
        (competitors.filter (fun c => decide (c.competition_score ≥ 7/10))).length
      high_competition :=
        (competitors.filter (fun c =>
          decide (5/10 ≤ c.competition_score ∧ c.competition_score < 7/10))).length
      medium_competition :=
        (competitors.filter (fun c =>
          decide (3/10 ≤ c.competition_score ∧ c.competition_score < 5/10))).length
      low_competition :=
        (competitors.filter (fun c => decide (c.competition_score < 3/10))).length
      average_match_percentage := total_match_pct / (competitors.length : ℚ)
      biggest_competitors := (sorted_comps.take 5).map (fun c =>
        (c.name, c.competition_score, c.exact_match_count)) }

/-- Follows the words of claim C5 (NOT the source): the mean of
`exact_match_count / competitor_total_courses * 100` over only those
competitors having at least one course. Stated for comparison with
`generate_summary`. -/
def claimed_average_match_percentage (competitors : List CompetitorReport) : ℚ :=
  let withCourses := competitors.filter (fun c => decide (0 < c.total_courses))
  (withCourses.map (fun c =>
    (c.exact_match_count : ℚ) / (c.total_courses : ℚ) * 100)).sum
    / (withCourses.length : ℚ)

/-- One configured home college in `colleges_config.MY_COLLEGES`. -/
structure YourCollege where
  name : String := ""
  location : String := ""
  programs : List String := []
deriving DecidableEq

/-- The value part of one entry of `detect_competitor_courses`' result
(src/course_matcher.py:69-74); `match_courses` reads `url` and
`normalized_courses`. -/
structure CompetitorData where
  url : String := ""
  raw_courses : List String := []
  normalized_courses : List String := []
deriving DecidableEq

/-- The per-college body of `CourseMatcherAI.get_your_courses`
(src/course_matcher.py:30-40): `[p.lower().strip() for p in programs if p]`. -/
def normalize_programs (programs : List String) : List String :=
  (programs.filter (fun p => p ≠ "")).map (fun p => pyStrip (pyLower p))

/-- `CourseMatcherAI.get_your_courses` (src/course_matcher.py:30-40) over an
association-list model of the `MY_COLLEGES` dict. -/
def get_your_courses (cfg : List (String × YourCollege)) :
    List (String × List String) :=
  cfg.map (fun p => (p.1, normalize_programs p.2.programs))

/-- The `your_college` block of the report (src/course_matcher.py:100-106). -/
structure YourCollegeInfo where
  id : String
  name : String
  location : String
  total_courses : ℕ
  courses : List String
deriving DecidableEq

/-- The full matching report (src/course_matcher.py:99-161). -/
structure Report where
  your_college : YourCollegeInfo
  competitors : List CompetitorReport
  summary : Summary
deriving DecidableEq

/-- `CourseMatcherAI.match_courses` (src/course_matcher.py:80-161). An
unknown `your_college_id` makes the source log an error and return the
empty dict `{}` without touching any state; the embedding is a total pure
function and models that empty report as `none`. The two lookups (into
`get_your_courses`' dict and into `MY_COLLEGES`) have the same key set, so
they succeed or fail together. -/
def match_courses (cfg : List (String × YourCollege))
    (your_college_id : String)
    (competitor_courses : List (String × CompetitorData)) : Option Report :=
  match (get_your_courses cfg).lookup your_college_id,
        cfg.lookup your_college_id with
  | some your_courses_list, some your_college =>
      let comps := competitor_courses.map (fun p =>
        analyze_competitor p.1 p.2.url your_courses_list p.2.normalized_courses)
      some
        { your_college :=
            { id := your_college_id
              name := your_college.name
              location := your_college.location
              total_courses := your_courses_list.length
              courses := your_courses_list }
          competitors := comps
          summary := generate_summary comps }
  | _, _ => none

/-! ## Helper lemmas -/

/-- Evaluation rule for `compare_programs` on profiles with non-empty
program sets and known intersection/union cardinalities. -/
theorem compare_programs_eval (c1 c2 : College) (ov tot : ℕ)
    (h1 : (c1.programs.toFinset ∩ c2.programs.toFinset).card = ov)
    (h2 : (c1.programs.toFinset ∪ c2.programs.toFinset).card = tot)
    (hne1 : c1.programs.toFinset ≠ ∅) (hne2 : c2.programs.toFinset ≠ ∅)
    (hpos : 0 < tot) :
    compare_programs c1 c2 = (ov : ℚ) / (tot : ℚ) := by
  have hne : ¬ (c1.programs.toFinset = ∅ ∨ c2.programs.toFinset = ∅) := by
    push_neg; exact ⟨hne1, hne2⟩
  simp only [compare_programs, if_neg hne, h1, h2, if_pos hpos]

/-- The gate together with the classifier: program overlap below `0.1`
forces overall score `0` and level `NONE`. Shared between the claims about
the college-level comparator. -/
theorem gate_eval (my_college competitor : College)
    (h : compare_programs my_college competitor < 1/10) :
    compare_colleges my_college competitor = (0, CollegeLevel.NONE) := by
  have hs : calculate_similarity my_college competitor = 0 := by
    unfold calculate_similarity
    simp only [if_pos h]
  have hl : determine_competition_level
      (calculate_similarity my_college competitor) my_college competitor
      = CollegeLevel.NONE := by
    unfold determine_competition_level
    have h1 : ¬ (compare_programs my_college competitor > 6/10 ∧
        calculate_similarity my_college competitor > 65/100) := by
      rintro ⟨h6, -⟩; linarith
    have h2 : ¬ (compare_programs my_college competitor > 3/10 ∧
        calculate_similarity my_college competitor > 45/100) := by
      rintro ⟨h3, -⟩; linarith
    have h3 : ¬ compare_programs my_college competitor > 1/10 := by linarith
    simp only [if_neg h1, if_neg h2, if_neg h3]
  show (calculate_similarity my_college competitor,
    determine_competition_level (calculate_similarity my_college competitor)
      my_college competitor) = (0, CollegeLevel.NONE)
  rw [hl, hs]

/-- The Bool guard `qualifies` holds exactly when the token-Jaccard ratio
(with `ℚ` division) strictly exceeds `2/5`: a zero overlap or an empty
union both force the ratio to `0`, so the source's extra `overlap > 0` and
`total_keywords > 0` guards add nothing. -/
theorem qualifies_iff (comp_course your_course : String) :
    qualifies comp_course your_course = true ↔
      closeSim comp_course your_course > 2/5 := by
  unfold qualifies closeSim
  rw [decide_eq_true_eq]
  constructor
  · rintro ⟨-, -, h3⟩
    have h45 : (4 : ℚ)/10 = 2/5 := by norm_num
    rw [h45] at h3
    exact h3
  · intro h
    have htot : (tokens comp_course ∪ tokens your_course).card ≠ 0 := by
      intro h0
      rw [h0, Nat.cast_zero, div_zero] at h
      exact absurd h (by norm_num)
    have hov : (tokens comp_course ∩ tokens your_course).card ≠ 0 := by
      intro h0
      rw [h0, Nat.cast_zero, zero_div] at h
      exact absurd h (by norm_num)
    refine ⟨Nat.pos_of_ne_zero hov, Nat.pos_of_ne_zero htot, ?_⟩
    have h45 : (4 : ℚ)/10 = 2/5 := by norm_num
    rw [h45]
    exact h

/-- Membership in `find_close_matches` unfolded to the underlying
`List.find?` call. -/
theorem close_matches_mem_iff (your_courses competitor_courses exclude :
    List String) (c h : String) :
    (c, h) ∈ find_close_matches your_courses competitor_courses exclude ↔
      (c ∈ competitor_courses ∧ c ∉ exclude ∧
        (your_courses.filter (fun y => decide (y ∉ exclude))).find?
          (fun y => qualifies c y) = some h) := by
  simp only [find_close_matches]
  rw [List.mem_dedup, List.mem_filterMap]
  constructor
  · rintro ⟨a, ha, hf⟩
    by_cases hex : a ∈ exclude
    · rw [if_pos hex] at hf
      exact absurd hf (by simp)
    · rw [if_neg hex] at hf
      rcases Option.map_eq_some'.mp hf with ⟨y, hy, heq⟩
      injection heq with heq1 heq2
      subst heq1
      subst heq2
      exact ⟨ha, hex, hy⟩
  · rintro ⟨hc, hex, hfind⟩
    refine ⟨c, hc, ?_⟩
    rw [if_neg hex, hfind]
    rfl

/-- Scenario B of the specification: `"software engineering"` vs
`"software development"` has token Jaccard `1/3 ≤ 0.4`, so no close match
is produced. -/
theorem scenarioB_no_close_match :
    find_close_matches ["software engineering"] ["software development"] []
      = [] := by
  have h1 : (tokens "software development" ∩
      tokens "software engineering").card = 1 := by decide
  have h2 : (tokens "software development" ∪
      tokens "software engineering").card = 3 := by decide
  have hq : qualifies "software development" "software engineering"
      = false := by
    simp only [qualifies, h1, h2]
    norm_num
  have hfilter : (["software engineering"].filter
      (fun c => decide (c ∉ ([] : List String))))
      = ["software engineering"] := rfl
  have hfind : List.find? (fun y => qualifies "software development" y)
      (["software engineering"].filter
        (fun c => decide (c ∉ ([] : List String)))) = none := by
    rw [hfilter, List.find?_cons_of_neg _ (by rw [hq]; decide),
      List.find?_nil]
  simp only [find_close_matches]
  rw [List.filterMap_cons, if_neg (List.not_mem_nil _), hfind]
  rfl

/-! ## Claim theorems -/

/-- C1: Gate law (college-level). For every pair of college profiles, if the
program-overlap similarity between them is strictly less than `0.1`, then
`compare_colleges` returns overall score `0.0` and competition level `NONE`,
regardless of the academic-metric and enrollment similarity values (which
are quantified over implicitly through the arbitrary metric fields of the
two profiles). -/
theorem C1_gate_law (my_college competitor : College)
    (h : compare_programs my_college competitor < 1/10) :
    compare_colleges my_college competitor = (0, CollegeLevel.NONE) :=
  gate_eval my_college competitor h

/-- Witness for C1 at concrete profiles with disjoint program lists. -/
theorem C1_gate_law_witness :
    compare_programs { programs := ["math"] } { programs := ["law"] } < 1/10 ∧
    compare_colleges { programs := ["math"] } { programs := ["law"] }
      = (0, CollegeLevel.NONE) := by
  have he : compare_programs { programs := ["math"] } { programs := ["law"] }
      = (0 : ℚ) / (2 : ℚ) :=
    compare_programs_eval _ _ 0 2 (by decide) (by decide) (by decide)
      (by decide) (by norm_num)
  have h : compare_programs { programs := ["math"] } { programs := ["law"] }
      < 1/10 := by
    rw [he]; norm_num
  exact ⟨h, C1_gate_law _ _ h⟩

/-- C6: Neutral default for missing program data. If either profile's
program list (hence its program set) is empty, the program-overlap
similarity used by `compare_colleges` is `0.5` — not `0.0` and not an
error (the embedding is total; the source never divides by zero on this
path). -/
theorem C6_neutral_default (college1 college2 : College)
    (h : college1.programs = [] ∨ college2.programs = []) :
    compare_programs college1 college2 = 1/2 := by
  unfold compare_programs
  have h' : college1.programs.toFinset = ∅ ∨ college2.programs.toFinset = ∅ := by
    rcases h with h | h <;> [left; right] <;> simp [h]
  simp only [if_pos h']

/-- Witness for C6: one side empty, and the both-empty case. -/
theorem C6_neutral_default_witness :
    compare_programs { programs := [] } { programs := ["law"] } = 1/2 ∧
    compare_programs (College.mk "" "" [] none none none none none)
      { programs := [] } = 1/2 := by
  constructor
  · exact C6_neutral_default _ _ (Or.inl rfl)
  · exact C6_neutral_default _ _ (Or.inr rfl)

/-- C2: course-level scoring. For all non-negative integers `exact_count`,
`close_count`, `competitor_total`, the score is `0.0` when
`competitor_total = 0` and `min 1 ((2 * exact + close) / total)` otherwise;
consequently it always lies in `[0, 1]`. -/
theorem C2_course_score (exact_count close_count competitor_total : ℕ) :
    (competitor_total = 0 →
      calculate_competition_score exact_count close_count competitor_total = 0) ∧
    (competitor_total ≠ 0 →
      calculate_competition_score exact_count close_count competitor_total
        = min 1 (((exact_count * 2 + close_count : ℕ) : ℚ) / (competitor_total : ℚ))) ∧
    0 ≤ calculate_competition_score exact_count close_count competitor_total ∧
    calculate_competition_score exact_count close_count competitor_total ≤ 1 := by
  refine ⟨fun h0 => by simp [calculate_competition_score, h0],
    fun hne => by simp [calculate_competition_score, hne], ?_, ?_⟩
  · unfold calculate_competition_score
    split
    · exact le_refl 0
    · refine le_min (by norm_num) (div_nonneg ?_ ?_) <;> positivity
  · unfold calculate_competition_score
    split
    · norm_num
    · exact min_le_left _ _

/-- Witness for C2 at `(exact, close, total) = (1, 1, 2)` and `(1, 1, 0)`. -/
theorem C2_course_score_witness :
    calculate_competition_score 1 1 0 = 0 ∧
    calculate_competition_score 1 1 2 = min 1 (((1 * 2 + 1 : ℕ) : ℚ) / (2 : ℚ)) := by
  exact ⟨(C2_course_score 1 1 0).1 rfl, (C2_course_score 1 1 2).2.1 (by norm_num)⟩

/-- C8: weighting law (course-level). For fixed positive `competitor_total`,
raising the exact-match count by one never increases the score less than
raising the close-match count by one. -/
theorem C8_weighting_law (exact_count close_count competitor_total : ℕ)
    (h : 0 < competitor_total) :
    calculate_competition_score exact_count (close_count + 1) competitor_total ≤
      calculate_competition_score (exact_count + 1) close_count competitor_total := by
  unfold calculate_competition_score
  rw [if_neg (Nat.pos_iff_ne_zero.mp h), if_neg (Nat.pos_iff_ne_zero.mp h)]
  refine min_le_min (le_refl 1) ?_
  have ht : (0 : ℚ) ≤ (competitor_total : ℚ) := by positivity
  refine div_le_div_of_nonneg_right ?_ ht
  push_cast
  linarith

/-- Witness for C8 at `(exact, close, total) = (0, 0, 2)`. -/
theorem C8_weighting_law_witness :
    calculate_competition_score 0 1 2 ≤ calculate_competition_score 1 0 2 :=
  C8_weighting_law 0 0 2 (by norm_num)

/-- C3: course-level classification thresholds (five-tier), and the
zero-course scenario: a competitor with an empty course list gets
competition score `0.0`, match percentage `0`, and level `VERY_LOW`. -/
theorem C3_classification :
    (∀ s : ℚ,
      (s ≥ 7/10 → classify_competition s = CourseLevel.VERY_HIGH) ∧
      (5/10 ≤ s ∧ s < 7/10 → classify_competition s = CourseLevel.HIGH) ∧
      (3/10 ≤ s ∧ s < 5/10 → classify_competition s = CourseLevel.MEDIUM) ∧
      (1/10 ≤ s ∧ s < 3/10 → classify_competition s = CourseLevel.LOW) ∧
      (s < 1/10 → classify_competition s = CourseLevel.VERY_LOW)) ∧
    (∀ (comp_name comp_url : String) (your_courses_list : List String),
      (analyze_competitor comp_name comp_url your_courses_list
        []).competition_score = 0 ∧
      (analyze_competitor comp_name comp_url your_courses_list
        []).match_percentage = 0 ∧
      (analyze_competitor comp_name comp_url your_courses_list
        []).competition_level = CourseLevel.VERY_LOW) := by
  have hclassify0 : classify_competition 0 = CourseLevel.VERY_LOW := by
    unfold classify_competition
    norm_num
  constructor
  · intro s
    refine ⟨fun h => ?_, fun h => ?_, fun h => ?_, fun h => ?_, fun h => ?_⟩ <;>
      unfold classify_competition
    · rw [if_pos h]
    · rw [if_neg (by rw [ge_iff_le]; exact not_le.mpr h.2),
        if_pos (ge_iff_le.mpr h.1)]
    · rw [if_neg (by rw [ge_iff_le]; exact not_le.mpr (by linarith [h.2])),
        if_neg (by rw [ge_iff_le]; exact not_le.mpr h.2),
        if_pos (ge_iff_le.mpr h.1)]
    · rw [if_neg (by rw [ge_iff_le]; exact not_le.mpr (by linarith [h.2])),
        if_neg (by rw [ge_iff_le]; exact not_le.mpr (by linarith [h.2])),
        if_neg (by rw [ge_iff_le]; exact not_le.mpr h.2),
        if_pos (ge_iff_le.mpr h.1)]
    · rw [if_neg (by rw [ge_iff_le]; exact not_le.mpr (by linarith)),
        if_neg (by rw [ge_iff_le]; exact not_le.mpr (by linarith)),
        if_neg (by rw [ge_iff_le]; exact not_le.mpr (by linarith)),
        if_neg (by rw [ge_iff_le]; exact not_le.mpr (by linarith))]
  · intro comp_name comp_url your_courses_list
    refine ⟨rfl, rfl, ?_⟩
    show classify_competition (calculate_competition_score
      (find_exact_matches your_courses_list []).length
      (find_close_matches your_courses_list [] (find_exact_matches
        your_courses_list [])).length 0) = CourseLevel.VERY_LOW
    rw [show calculate_competition_score
      (find_exact_matches your_courses_list []).length
      (find_close_matches your_courses_list [] (find_exact_matches
        your_courses_list [])).length 0 = 0 from rfl]
    exact hclassify0

/-- Witness for C3: the five bands at concrete scores, and the zero-course
scenario at a concrete home list. -/
theorem C3_classification_witness :
    classify_competition (8/10) = CourseLevel.VERY_HIGH ∧
    classify_competition (6/10) = CourseLevel.HIGH ∧
    classify_competition (4/10) = CourseLevel.MEDIUM ∧
    classify_competition (2/10) = CourseLevel.LOW ∧
    classify_competition (5/100) = CourseLevel.VERY_LOW ∧
    (analyze_competitor "camford" "https://camford.example"
      ["math"] []).competition_level = CourseLevel.VERY_LOW := by
  refine ⟨(C3_classification.1 (8/10)).1 (by norm_num),
    (C3_classification.1 (6/10)).2.1 (by norm_num),
    (C3_classification.1 (4/10)).2.2.1 (by norm_num),
    (C3_classification.1 (2/10)).2.2.2.1 (by norm_num),
    (C3_classification.1 (5/100)).2.2.2.2 (by norm_num),
    (C3_classification.2 "camford" "https://camford.example" ["math"]).2.2⟩

/-- C4: close-match detection. (1) A pair `(c, h)` is produced exactly when
`c` is a non-excluded competitor course and `h` is the FIRST non-excluded
home course, in home-list order, whose whitespace-token Jaccard ratio
strictly exceeds `0.4` (both lists are first purged of excluded items); a
competitor course with no qualifying home course produces no pair.
(2) Each competitor course is paired with at most one home course.
(3) Scenario B: `"software engineering"` vs `"software development"`
(token Jaccard `1/3`) is not a close match. -/
theorem C4_close_match_detection :
    (∀ (your_courses competitor_courses exclude : List String) (c h : String),
      ((c, h) ∈ find_close_matches your_courses competitor_courses exclude ↔
        c ∈ competitor_courses ∧ c ∉ exclude ∧ closeSim c h > 2/5 ∧
        ∃ pre suf,
          your_courses.filter (fun y => decide (y ∉ exclude))
            = pre ++ h :: suf ∧
          ∀ y ∈ pre, ¬ closeSim c y > 2/5)) ∧
    (∀ (your_courses competitor_courses exclude : List String)
      (c h₁ h₂ : String),
      (c, h₁) ∈ find_close_matches your_courses competitor_courses exclude →
      (c, h₂) ∈ find_close_matches your_courses competitor_courses exclude →
      h₁ = h₂) ∧
    find_close_matches ["software engineering"] ["software development"] []
      = [] := by
  refine ⟨?_, ?_, scenarioB_no_close_match⟩
  · intro your_courses competitor_courses exclude c h
    rw [close_matches_mem_iff your_courses competitor_courses exclude c h,
      List.find?_eq_some]
    constructor
    · rintro ⟨hc, hex, hq, pre, suf, hsplit, hpre⟩
      refine ⟨hc, hex, (qualifies_iff c h).mp hq, pre, suf, hsplit, ?_⟩
      intro y hy hclose
      have hfalse := hpre y hy
      rw [Bool.not_eq_true'] at hfalse
      rw [(qualifies_iff c y).mpr hclose] at hfalse
      exact Bool.noConfusion hfalse
    · rintro ⟨hc, hex, hclose, pre, suf, hsplit, hpre⟩
      refine ⟨hc, hex, (qualifies_iff c h).mpr hclose, pre, suf, hsplit, ?_⟩
      intro a ha
      rw [Bool.not_eq_true']
      cases hqa : qualifies c a
      · rfl
      · exact absurd ((qualifies_iff c a).mp hqa) (hpre a ha)
  · intro your_courses competitor_courses exclude c h₁ h₂ hm1 hm2
    have hf1 := ((close_matches_mem_iff your_courses competitor_courses
      exclude c h₁).mp hm1).2.2
    have hf2 := ((close_matches_mem_iff your_courses competitor_courses
      exclude c h₂).mp hm2).2.2
    exact Option.some.inj (hf1.symm.trans hf2)

/-- Witness for C4: `"x y"` vs home course `"x"` (Jaccard `1/2 > 0.4`) is a
close match, produced through the membership characterization, and the
at-most-one property instantiated on it. -/
theorem C4_close_match_detection_witness :
    ("x y", "x") ∈ find_close_matches ["x"] ["x y"] [] ∧
      ("x" : String) = "x" := by
  have h1 : (tokens "x y" ∩ tokens "x").card = 1 := by decide
  have h2 : (tokens "x y" ∪ tokens "x").card = 2 := by decide
  have hclose : closeSim "x y" "x" > 2/5 := by
    simp only [closeSim, h1, h2]
    norm_num
  have hmem : ("x y", "x") ∈ find_close_matches ["x"] ["x y"] [] := by
    refine (C4_close_match_detection.1 ["x"] ["x y"] [] "x y" "x").mpr
      ⟨by decide, by decide, hclose, [], [], rfl, by simp⟩
  exact ⟨hmem,
    C4_close_match_detection.2.1 ["x"] ["x y"] [] "x y" "x" "x" hmem hmem⟩

/-- C7 counterexample: `compare_colleges` is NOT invariant under
lower-casing/trimming the program strings. With home programs `["A"]` and
competitor programs `["a"]` the raw comparison sees two distinct programs
(overlap `0`, gated to score `0`, level `NONE`), while the normalized
comparison sees the same single program (overlap `1`, score `0.85`, level
`HIGH`): `CompetitionAnalyzer._compare_programs` builds its sets from the
raw strings with no normalization. -/
theorem C7_counterexample :
    compare_colleges { programs := ["A"] } { programs := ["a"] } ≠
      compare_colleges (normalizeCollege { programs := ["A"] })
        (normalizeCollege { programs := ["a"] }) := by
  have hraw : compare_colleges { programs := ["A"] } { programs := ["a"] }
      = (0, CollegeLevel.NONE) := by
    refine gate_eval _ _ ?_
    rw [compare_programs_eval _ _ 0 2 (by decide) (by decide) (by decide)
      (by decide) (by norm_num)]
    norm_num
  have hn1 : normalizeCollege { programs := ["A"] }
      = ({ programs := ["a"] } : College) := by decide
  have hn2 : normalizeCollege { programs := ["a"] }
      = ({ programs := ["a"] } : College) := by decide
  have hp : compare_programs ({ programs := ["a"] } : College)
      ({ programs := ["a"] } : College) = (1 : ℚ) / (1 : ℚ) :=
    compare_programs_eval _ _ 1 1 (by decide) (by decide) (by decide)
      (by decide) (by norm_num)
  have hm : compare_metrics ({ programs := ["a"] } : College)
      ({ programs := ["a"] } : College) = 1/2 := rfl
  have hs : calculate_similarity ({ programs := ["a"] } : College)
      ({ programs := ["a"] } : College) = 85/100 := by
    unfold calculate_similarity
    rw [hp, hm]
    norm_num [compare_single_metric]
  have hl : determine_competition_level (85/100)
      ({ programs := ["a"] } : College) ({ programs := ["a"] } : College)
      = CollegeLevel.HIGH := by
    unfold determine_competition_level
    rw [hp]
    norm_num
  have hnorm : compare_colleges ({ programs := ["a"] } : College)
      ({ programs := ["a"] } : College) = (85/100, CollegeLevel.HIGH) := by
    show (calculate_similarity { programs := ["a"] } { programs := ["a"] },
      determine_competition_level
        (calculate_similarity { programs := ["a"] } { programs := ["a"] })
        { programs := ["a"] } { programs := ["a"] })
      = (85/100, CollegeLevel.HIGH)
    rw [hs, hl]
  rw [hraw, hn1, hn2, hnorm]
  intro hEq
  exact CollegeLevel.noConfusion (congrArg Prod.snd hEq)

/-- C7 amended: `compare_colleges` operates on the raw program strings with
no normalization, so it agrees with the comparison of the normalized
profiles exactly when the program strings are already normalized
(lower-cased, trimmed) on both sides — program names differing only in
letter case or surrounding whitespace are treated as DIFFERENT programs by
the college-level comparator (the course-level matcher, by contrast,
normalizes its inputs in `get_your_courses`/`detect_competitor_courses`). -/
theorem C7_amended (my_college competitor : College)
    (h1 : ∀ p ∈ my_college.programs, pyStrip (pyLower p) = p)
    (h2 : ∀ p ∈ competitor.programs, pyStrip (pyLower p) = p) :
    compare_colleges my_college competitor =
      compare_colleges (normalizeCollege my_college)
        (normalizeCollege competitor) := by
  have n1 : normalizeCollege my_college = my_college := by
    unfold normalizeCollege
    have hmap : my_college.programs.map (fun p => pyStrip (pyLower p))
        = my_college.programs := by
      rw [List.map_congr_left h1]; exact List.map_id _
    cases my_college
    simp_all
  have n2 : normalizeCollege competitor = competitor := by
    unfold normalizeCollege
    have hmap : competitor.programs.map (fun p => pyStrip (pyLower p))
        = competitor.programs := by
      rw [List.map_congr_left h2]; exact List.map_id _
    cases competitor
    simp_all
  rw [n1, n2]

/-- Witness for C7 amended, at already-normalized concrete profiles. -/
theorem C7_amended_witness :
    compare_colleges { programs := ["math"] } { programs := ["law"] } =
      compare_colleges (normalizeCollege { programs := ["math"] })
        (normalizeCollege { programs := ["law"] }) :=
  C7_amended _ _ (by decide) (by decide)

/-- C5 counterexample: the summary's average does NOT exclude zero-course
competitors. With one competitor matching 100% of its single course and
one competitor with zero courses, `_generate_summary` produces
`(100 + 0) / 2 = 50`, while the mean over competitors having at least one
course (the claim's reading, `claimed_average_match_percentage`) is `100`. -/
theorem C5_counterexample :
    (generate_summary
      [analyze_competitor "n1" "u1" ["a"] ["a"],
       analyze_competitor "n2" "u2" ["a"] []]).average_match_percentage
      = 50 ∧
    claimed_average_match_percentage
      [analyze_competitor "n1" "u1" ["a"] ["a"],
       analyze_competitor "n2" "u2" ["a"] []] = 100 ∧
    (50 : ℚ) ≠ 100 := by
  refine ⟨?_, ?_, by norm_num⟩
  · norm_num [generate_summary, analyze_competitor, find_exact_matches,
      find_close_matches, calculate_competition_score]
  · norm_num [claimed_average_match_percentage, analyze_competitor,
      find_exact_matches, find_close_matches, calculate_competition_score]

/-- C5 amended: for every non-empty sequence of analyzed competitors, the
summary's `average_match_percentage` is the mean of `match_percentage`
over ALL competitors — a competitor with zero courses is counted as a `0`
data point (its `match_percentage` is `0`), not excluded from the
average. -/
theorem C5_average_all_competitors :
    (∀ competitors : List CompetitorReport, competitors ≠ [] →
      (generate_summary competitors).average_match_percentage =
        ((competitors.map (fun c => c.match_percentage)).sum)
          / (competitors.length : ℚ)) ∧
    (∀ (comp_name comp_url : String) (your_courses_list : List String),
      (analyze_competitor comp_name comp_url your_courses_list
        []).match_percentage = 0 ∧
      (analyze_competitor comp_name comp_url your_courses_list
        []).total_courses = 0) := by
  constructor
  · intro competitors hne
    cases competitors with
    | nil => exact absurd rfl hne
    | cons x xs => rfl
  · intro comp_name comp_url your_courses_list
    exact ⟨rfl, rfl⟩

/-- Witness for C5 amended: a singleton competitor list, and a concrete
zero-course competitor. -/
theorem C5_average_all_competitors_witness :
    (generate_summary
      [analyze_competitor "n1" "u1" ["a"] ["a"]]).average_match_percentage
      = (([analyze_competitor "n1" "u1" ["a"] ["a"]].map
          (fun c => c.match_percentage)).sum)
        / (([analyze_competitor "n1" "u1" ["a"] ["a"]] :
            List CompetitorReport).length : ℚ) ∧
    (analyze_competitor "n2" "u2" ["math"] []).match_percentage = 0 :=
  ⟨C5_average_all_competitors.1 _ (List.cons_ne_nil _ _),
   (C5_average_all_competitors.2 "n2" "u2" ["math"]).1⟩

/-- C9 counterexample: the report's `unique_to_competitor` is truncated to
its first 10 entries (`[:10]` in the source). With 11 competitor courses,
none matched, `"k"` is a competitor course that is neither an exact match
nor the competitor side of any close-match pair, yet it is absent from the
report field — so the field does NOT contain exactly the plain set
difference. -/
theorem C9_counterexample :
    ("k" ∈ ["a","b","c","d","e","f","g","h","i","j","k"] ∧
     "k" ∉ (analyze_competitor "n" "u" []
       ["a","b","c","d","e","f","g","h","i","j","k"]).exact_matches ∧
     "k" ∉ ((analyze_competitor "n" "u" []
       ["a","b","c","d","e","f","g","h","i","j","k"]).close_matches.map
         Prod.fst)) ∧
    "k" ∉ (analyze_competitor "n" "u" []
      ["a","b","c","d","e","f","g","h","i","j","k"]).unique_to_competitor :=
  ⟨⟨by decide, by decide, by decide⟩, by decide⟩

/-- C9 amended: the report's `unique_to_competitor` (resp. `unique_to_yours`)
field holds the FIRST 10 entries of the plain set difference — the
competitor (resp. home) courses that are neither exact matches nor the
competitor (resp. home) side of any close-match pair; whenever that
difference has at most 10 elements the field is exactly the set
difference. -/
theorem C9_truncated_unique_lists (comp_name comp_url : String)
    (your_courses_list comp_courses : List String) :
    ((analyze_competitor comp_name comp_url your_courses_list
        comp_courses).unique_to_competitor
      = (comp_courses.filter (fun c => decide
          (c ∉ find_exact_matches your_courses_list comp_courses ∧
           c ∉ (find_close_matches your_courses_list comp_courses
            (find_exact_matches your_courses_list comp_courses)).map
              Prod.fst))).take 10) ∧
    ((analyze_competitor comp_name comp_url your_courses_list
        comp_courses).unique_to_yours
      = (your_courses_list.filter (fun c => decide
          (c ∉ find_exact_matches your_courses_list comp_courses ∧
           c ∉ (find_close_matches your_courses_list comp_courses
            (find_exact_matches your_courses_list comp_courses)).map
              Prod.snd))).take 10) ∧
    ((comp_courses.filter (fun c => decide
        (c ∉ find_exact_matches your_courses_list comp_courses ∧
         c ∉ (find_close_matches your_courses_list comp_courses
          (find_exact_matches your_courses_list comp_courses)).map
            Prod.fst))).length ≤ 10 →
      (analyze_competitor comp_name comp_url your_courses_list
        comp_courses).unique_to_competitor
      = comp_courses.filter (fun c => decide
          (c ∉ find_exact_matches your_courses_list comp_courses ∧
           c ∉ (find_close_matches your_courses_list comp_courses
            (find_exact_matches your_courses_list comp_courses)).map
              Prod.fst))) ∧
    ((your_courses_list.filter (fun c => decide
        (c ∉ find_exact_matches your_courses_list comp_courses ∧
         c ∉ (find_close_matches your_courses_list comp_courses
          (find_exact_matches your_courses_list comp_courses)).map
            Prod.snd))).length ≤ 10 →
      (analyze_competitor comp_name comp_url your_courses_list
        comp_courses).unique_to_yours
      = your_courses_list.filter (fun c => decide
          (c ∉ find_exact_matches your_courses_list comp_courses ∧
           c ∉ (find_close_matches your_courses_list comp_courses
            (find_exact_matches your_courses_list comp_courses)).map
              Prod.snd))) := by
  refine ⟨rfl, rfl, fun hlen => ?_, fun hlen => ?_⟩
  · rw [show (analyze_competitor comp_name comp_url your_courses_list
        comp_courses).unique_to_competitor
      = (comp_courses.filter (fun c => decide
          (c ∉ find_exact_matches your_courses_list comp_courses ∧
           c ∉ (find_close_matches your_courses_list comp_courses
            (find_exact_matches your_courses_list comp_courses)).map
              Prod.fst))).take 10 from rfl]
    exact List.take_of_length_le hlen
  · rw [show (analyze_competitor comp_name comp_url your_courses_list
        comp_courses).unique_to_yours
      = (your_courses_list.filter (fun c => decide
          (c ∉ find_exact_matches your_courses_list comp_courses ∧
           c ∉ (find_close_matches your_courses_list comp_courses
            (find_exact_matches your_courses_list comp_courses)).map
              Prod.snd))).take 10 from rfl]
    exact List.take_of_length_le hlen

/-- Witness for C9 amended: one unmatched competitor course, where the set
difference has a single element and the field is exactly that
difference. -/
theorem C9_truncated_unique_lists_witness :
    (["a"].filter (fun c => decide
        (c ∉ find_exact_matches [] ["a"] ∧
         c ∉ (find_close_matches [] ["a"]
          (find_exact_matches [] ["a"])).map Prod.fst))).length ≤ 10 ∧
    (analyze_competitor "n" "u" [] ["a"]).unique_to_competitor
      = ["a"].filter (fun c => decide
          (c ∉ find_exact_matches [] ["a"] ∧
           c ∉ (find_close_matches [] ["a"]
            (find_exact_matches [] ["a"])).map Prod.fst)) :=
  ⟨by decide, (C9_truncated_unique_lists "n" "u" [] ["a"]).2.2.1 (by decide)⟩

/-- Association-list lookup fails when no key matches. -/
theorem lookup_eq_none_of_no_key {β : Type} (l : List (String × β))
    (k : String) (h : ∀ p ∈ l, p.1 ≠ k) : l.lookup k = none := by
  induction l with
  | nil => rfl
  | cons x xs ih =>
    cases x with
    | mk k' v =>
      have hne : (k == k') = false :=
        beq_eq_false_iff_ne.mpr (Ne.symm (h (k', v) (List.mem_cons_self _ _)))
      simp only [List.lookup, hne]
      exact ih (fun p hp => h p (List.mem_cons_of_mem _ hp))

/-- C10: unknown home-college identifier. For every competitor-courses
mapping, if `your_college_id` is not a key of the configured colleges,
`match_courses` returns the empty report (`none`, the model of Python's
`{}`) — the embedding is a total pure function, so no exception is raised
and no state is touched. -/
theorem C10_unknown_college (cfg : List (String × YourCollege))
    (your_college_id : String)
    (competitor_courses : List (String × CompetitorData))
    (h : ∀ p ∈ cfg, p.1 ≠ your_college_id) :
    match_courses cfg your_college_id competitor_courses = none := by
  have h2 : ∀ p ∈ get_your_courses cfg, p.1 ≠ your_college_id := by
    intro p hp
    rcases List.mem_map.mp hp with ⟨q, hq, rfl⟩
    exact h q hq
  unfold match_courses
  rw [lookup_eq_none_of_no_key _ _ h2, lookup_eq_none_of_no_key _ _ h]

/-- Witness for C10: a one-college configuration queried with an id that is
not configured. -/
theorem C10_unknown_college_witness :
    match_courses
      [("college_1",
        { name := "North Notts College", location := "Worksop, UK",
          programs := ["Computer Science"] })]
      "college_9" [] = none :=
  C10_unknown_college _ _ _ (by decide)

end CollegeApp
